import Mathlib

/-!
Shallow embedding of `src/samples-generator/lib/createGltf.js`.

The source converts an in-memory triangle mesh into a glTF 2.0 asset
description.  Numeric values are modelled as rationals; the JavaScript
extended values that `Math.min` / `Math.max` can produce (the infinities
used as fold seeds, and `NaN` arising from an out-of-range array read,
which yields `undefined` and then `NaN` under `Math.min`) are modelled by
the inductive type `JsVal` below.
-/

deriving instance DecidableEq for Except

namespace CreateGltf

/-- Extended JavaScript number as seen by `Math.min` and `Math.max`:
a finite rational, one of the two infinities, or `NaN`. -/
inductive JsVal where
  | negInf : JsVal
  | fin : ℚ → JsVal
  | posInf : JsVal
  | nan : JsVal
deriving DecidableEq

/-- Source semantics of `Math.min` on two arguments: `NaN` is absorbing,
then negative infinity is absorbing, positive infinity is the identity,
and finite values take the rational minimum. -/
def jsMin : JsVal → JsVal → JsVal
  | .nan, _ => .nan
  | _, .nan => .nan
  | .negInf, _ => .negInf
  | _, .negInf => .negInf
  | .posInf, b => b
  | a, .posInf => a
  | .fin a, .fin b => .fin (min a b)

/-- Source semantics of `Math.max` on two arguments, dual to `jsMin`. -/
def jsMax : JsVal → JsVal → JsVal
  | .nan, _ => .nan
  | _, .nan => .nan
  | .posInf, _ => .posInf
  | _, .posInf => .posInf
  | .negInf, b => b
  | a, .negInf => a
  | .fin a, .fin b => .fin (max a b)

/-- Reading `array[index]` in the source: an in-range read yields the finite
value, an out-of-range read yields `undefined`, which `Math.min` and
`Math.max` treat as `NaN`; we map it to `JsVal.nan` at the read. -/
def arrGet (a : List ℚ) (i : ℕ) : JsVal :=
  match a.get? i with
  | some q => .fin q
  | none => .nan

/-- Number of iterations of the `for (var i = 0; i < count; ++i)` loop of
`getMinMax`, where `count = length / components` is a JavaScript real
division: the loop body runs once for each integer below `length / components`,
i.e. the ceiling of the quotient.  (For `components = 0` and `length > 0` the
source loops forever; every call site of the source passes 1, 2, 3 or 4, and
every theorem below assumes a positive component count where it matters.) -/
def jsIterCount (length components : ℕ) : ℕ :=
  if components = 0 then 0 else (length + components - 1) / components

/-- Result record of `getMinMax` (lines 411-414 of the source): the
per-component `min` and `max` arrays. -/
structure MinMax where
  min : List JsVal
  max : List JsVal
deriving DecidableEq

/-- `getMinMax(array, components, start, length)`, lines 397-415 of the
source.  The source initialises `min[j] = +Infinity`, `max[j] = -Infinity`
and then loops `i` over the iteration count and `j` over the components,
folding `Math.min` / `Math.max` of `array[start + i * components + j]` into
cell `j`.  Since the cell at `j` is only ever combined with the reads at
residue `j`, in ascending `i` order, the computation of each cell is the
left fold below; the record collects the cells for `j = 0, ..., components - 1`. -/
def getMinMax (array : List ℚ) (components start length : ℕ) : MinMax :=
  { min := (List.range components).map (fun j =>
      ((List.range (jsIterCount length components)).map
        (fun i => arrGet array (start + i * components + j))).foldl jsMin .posInf)
    max := (List.range components).map (fun j =>
      ((List.range (jsIterCount length components)).map
        (fun i => arrGet array (start + i * components + j))).foldl jsMax .negInf) }

/-- `getMinMax(array, components)` with `start` and `length` omitted:
`defaultValue` fills in `start = 0` and `length = array.length` (lines 398-399). -/
def getMinMaxD (array : List ℚ) (components : ℕ) : MinMax :=
  getMinMax array components 0 array.length

/-- The `baseColor` field of a material: the source distinguishes the two
cases by `typeof baseColor === 'string'` (line 181) — a texture URI string
versus a flat RGBA color array. -/
inductive BaseColor where
  | uri : String → BaseColor
  | rgba : ℚ → ℚ → ℚ → ℚ → BaseColor
deriving DecidableEq

/-- A mesh material; the source only reads `material.baseColor` (line 176). -/
structure MaterialRec where
  baseColor : BaseColor
deriving DecidableEq

/-- A mesh view: a contiguous sub-range of the shared index sequence
(`indexOffset`, `indexCount`) together with a material. -/
structure View where
  indexOffset : ℕ
  indexCount : ℕ
  material : MaterialRec
deriving DecidableEq

/-- The mesh input (lines 44-51 of the source read these fields).  The
`center` field models `mesh.getCenter()`.
Modelled from the spec: the Mesh class itself is not under `src/`; per the
spec the mesh exposes flat numeric sequences for each attribute, a list of
views, and a center computation — the core does not compute the center
itself, so the center is carried as data here. -/
structure Mesh where
  positions : List ℚ
  normals : List ℚ
  uvs : List ℚ
  vertexColors : List ℚ
  batchIds : List ℚ
  indices : List ℚ
  views : List View
  center : ℚ × ℚ × ℚ
deriving DecidableEq

/-- Line 54 of the source: the mesh has vertex colors unless every element
of `vertexColors` equals zero. -/
def hasVertexColors (vertexColors : List ℚ) : Bool :=
  !(vertexColors.all (fun e => e == 0))

/-- The component of a 3-vector center selected by a flat-array residue:
component 0 is x, 1 is y, anything else (only 2 can occur for residues
modulo 3) is z. -/
def centerComponent (c : ℚ × ℚ × ℚ) : ℕ → ℚ
  | 0 => c.1
  | 1 => c.2.1
  | _ => c.2.2

/-- Modelled from the spec: `mesh.setPositionsRelativeToCenter()` (called at
line 60 of the source) is a method of the Mesh class, which is not under
`src/`.  Per the spec it is a recenter-in-place mutation: the 3-component
center is subtracted from every position triple, i.e. each flat-array entry
at index `i` loses the center component for residue `i` modulo 3. -/
def subtractCenter (positions : List ℚ) (c : ℚ × ℚ × ℚ) : List ℚ :=
  positions.enum.map (fun p => p.2 - centerComponent c (p.1 % 3))

/-- The state of the input mesh after `createGltf` returns, lines 56-61 of
the source: when `relativeToCenter` is set the source itself calls
`mesh.setPositionsRelativeToCenter()`, mutating the positions in place;
no other statement of the source writes to the mesh (all remaining uses
are reads). -/
def meshAfterCreateGltf (m : Mesh) (relativeToCenter : Bool) : Mesh :=
  if relativeToCenter then { m with positions := subtractCenter m.positions m.center } else m

/-- Lines 63-72 of the source.  `rootMatrix` is assigned only for the two
recognised `upAxis` values; for any other value the variable keeps its
JavaScript `undefined` value, modelled as `none` — the source raises no
error in that case. -/
def computeRootMatrix (upAxis : String) : Option (List ℤ) :=
  if upAxis = "Y" then
    some [1, 0, 0, 0, 0, 0, -1, 0, 0, 1, 0, 0, 0, 0, 0, 1]
  else if upAxis = "Z" then
    some [1, 0, 0, 0, 0, 1, 0, 0, 0, 0, 1, 0, 0, 0, 0, 1]
  else
    none

/-- The 16-element identity matrix literal of line 71. -/
def identityMatrix : List ℤ := [1, 0, 0, 0, 0, 1, 0, 0, 0, 0, 1, 0, 0, 0, 0, 1]

/-- The 16-element matrix literal of line 68: in the column-major glTF
layout this is the rotation by 90 degrees about the x-axis taking a z-up
model to the y-up glTF convention (it maps a vector (x, y, z) to (x, z, -y),
so the z-up up-vector (0, 0, 1) goes to the y-up up-vector (0, 1, 0)). -/
def zUpToYUpMatrix : List ℤ := [1, 0, 0, 0, 0, 0, -1, 0, 0, 1, 0, 0, 0, 0, 0, 1]

/-- Application of a 16-element column-major matrix to a 3-vector with
implicit fourth coordinate 1, dropping the fourth output coordinate; used
only to state what the fixed matrices do to up-vectors. -/
def matApply (m : List ℤ) (v : ℤ × ℤ × ℤ) : ℤ × ℤ × ℤ :=
  (m.getD 0 0 * v.1 + m.getD 4 0 * v.2.1 + m.getD 8 0 * v.2.2 + m.getD 12 0,
   m.getD 1 0 * v.1 + m.getD 5 0 * v.2.1 + m.getD 9 0 * v.2.2 + m.getD 13 0,
   m.getD 2 0 * v.1 + m.getD 6 0 * v.2.1 + m.getD 10 0 * v.2.2 + m.getD 14 0)

/-- `defaultValue(options.upAxis, 'Y')`, line 42 of the source. -/
def defaultUpAxis (o : Option String) : String := o.getD "Y"

/-- The root node record of lines 368-374 of the source: the (possibly
undefined) root matrix, mesh index 0 and the name `rootNode`.  In the
source these lines are never reached (the invocation raises at line 79,
166 or 247 first); the record is only ever constructed behind those error
points, in the gated assembly of `buildGltf` below. -/
structure NodeRec where
  matrix : Option (List ℤ)
  mesh : ℕ
  name : String
deriving DecidableEq

/-- Byte-size constants of lines 18-20 of the source. -/
def sizeOfUint8 : ℕ := 1

/-- Byte size of an unsigned 16-bit integer (line 19 of the source). -/
def sizeOfUint16 : ℕ := 2

/-- Byte size of a 32-bit float (line 20 of the source). -/
def sizeOfFloat32 : ℕ := 4

/-- Byte length of the position segment: `Buffer.alloc(positionLength * sizeOfFloat32)`
at line 77. -/
def positionBufferLength (m : Mesh) : ℕ := m.positions.length * sizeOfFloat32

/-- Byte length of the normal segment (line 84). -/
def normalBufferLength (m : Mesh) : ℕ := m.normals.length * sizeOfFloat32

/-- Byte length of the uv segment (line 91). -/
def uvBufferLength (m : Mesh) : ℕ := m.uvs.length * sizeOfFloat32

/-- Byte length of the vertex-color segment: `Buffer.alloc(0)` at line 97
when the mesh has no vertex colors, otherwise one byte per element
(line 101; the second argument of `Buffer.alloc` there is a fill value,
not a size factor, so the length is `vertexColorsLength` bytes). -/
def vertexColorBufferLength (m : Mesh) : ℕ :=
  if hasVertexColors m.vertexColors then m.vertexColors.length * sizeOfUint8 else 0

/-- Byte length of the batch-id segment: `Buffer.alloc(0)` at line 108 when
batch ids are disabled, otherwise two bytes per element (line 113). -/
def batchIdBufferLength (m : Mesh) (useBatchIds : Bool) : ℕ :=
  if useBatchIds then m.batchIds.length * sizeOfUint16 else 0

/-- Byte length of the index segment (line 120). -/
def indexBufferLength (m : Mesh) : ℕ := m.indices.length * sizeOfUint16

/-- The byte offsets recorded for the six segments and the total buffer
byte length. -/
structure Layout where
  positionByteOffset : ℕ
  normalByteOffset : ℕ
  uvByteOffset : ℕ
  vertexColorByteOffset : ℕ
  batchIdByteOffset : ℕ
  indexByteOffset : ℕ
  byteLength : ℕ
deriving DecidableEq

/-- Lines 127-159 of the source: the buffer is
`Buffer.concat([positionBuffer, normalBuffer, uvBuffer, vertexColorBuffer, batchIdBuffer, indexBuffer])`
(absent optional segments being the zero-length buffers allocated above),
`byteLength` is the length of that concatenation, and the running
`byteOffset` accumulator of lines 147-159 records each segment offset,
adding the optional segment lengths only when the segment is present
(when absent those lengths are zero anyway, so the guarded adds of lines
155 and 157 equal the plain lengths).  These lines execute only for a mesh
with an empty position stream (otherwise line 79 raises first), and even
then the invocation raises later (line 166 or 247) before any of it is
returned; the definition embeds what the source text computes. -/
def computeLayout (m : Mesh) (useBatchIds : Bool) : Layout :=
  let byteOffset0 := 0
  let positionByteOffset := byteOffset0
  let byteOffset1 := byteOffset0 + positionBufferLength m
  let normalByteOffset := byteOffset1
  let byteOffset2 := byteOffset1 + normalBufferLength m
  let uvByteOffset := byteOffset2
  let byteOffset3 := byteOffset2 + uvBufferLength m
  let vertexColorByteOffset := byteOffset3
  let byteOffset4 := byteOffset3 +
    (if hasVertexColors m.vertexColors then vertexColorBufferLength m else 0)
  let batchIdByteOffset := byteOffset4
  let byteOffset5 := byteOffset4 + (if useBatchIds then batchIdBufferLength m useBatchIds else 0)
  let indexByteOffset := byteOffset5
  { positionByteOffset, normalByteOffset, uvByteOffset, vertexColorByteOffset,
    batchIdByteOffset, indexByteOffset,
    byteLength := positionBufferLength m + normalBufferLength m + uvBufferLength m +
      vertexColorBufferLength m + batchIdBufferLength m useBatchIds + indexBufferLength m }

/-- The buffer-view indices assigned by the `bufferViewIndex` counter of
lines 139-145 of the source: positions, normals and uvs always take 0, 1, 2;
the optional vertex-color and batch-id views take the next counter values
when present (and the literal 0 when absent); the index view takes the
final counter value. -/
structure BufferViewIndices where
  position : ℕ
  normal : ℕ
  uv : ℕ
  vertexColor : ℕ
  batchId : ℕ
  index : ℕ
deriving DecidableEq

/-- Lines 139-145 of the source, written with the counter made explicit. -/
def assignBufferViewIndices (hasVC useBatchIds : Bool) : BufferViewIndices :=
  let i0 := 0
  let position := i0
  let i1 := i0 + 1
  let normal := i1
  let i2 := i1 + 1
  let uv := i2
  let i3 := i2 + 1
  let vertexColor := if hasVC then i3 else 0
  let i4 := if hasVC then i3 + 1 else i3
  let batchId := if useBatchIds then i4 else 0
  let i5 := if useBatchIds then i4 + 1 else i4
  { position, normal, uv, vertexColor, batchId, index := i5 }

/-- A buffer-view record, lines 304-348 of the source. -/
structure BufferView where
  buffer : ℕ
  byteLength : ℕ
  byteOffset : ℕ
  target : ℕ
deriving DecidableEq

/-- Lines 304-348 of the source: the buffer-view list starts with the three
attribute views, pushes the vertex-color view only when the mesh has vertex
colors, pushes the batch-id view only when batch ids are enabled, and ends
with the index view (target 34963); all entries reference buffer 0.  No
execution reaches these lines (line 247 always raises earlier); the
definition embeds what the source text would build, is referenced only in
the gated assembly of `buildGltf` and in fragment-level theorems, and no
theorem presents its value as the output of an invocation. -/
def buildBufferViews (m : Mesh) (useBatchIds : Bool) : List BufferView :=
  let L := computeLayout m useBatchIds
  [{ buffer := 0, byteLength := positionBufferLength m,
     byteOffset := L.positionByteOffset, target := 34962 },
   { buffer := 0, byteLength := normalBufferLength m,
     byteOffset := L.normalByteOffset, target := 34962 },
   { buffer := 0, byteLength := uvBufferLength m,
     byteOffset := L.uvByteOffset, target := 34962 }] ++
  (if hasVertexColors m.vertexColors then
    [{ buffer := 0, byteLength := vertexColorBufferLength m,
       byteOffset := L.vertexColorByteOffset, target := 34962 }]
   else []) ++
  (if useBatchIds then
    [{ buffer := 0, byteLength := batchIdBufferLength m useBatchIds,
       byteOffset := L.batchIdByteOffset, target := 34962 }]
   else []) ++
  [{ buffer := 0, byteLength := indexBufferLength m,
     byteOffset := L.indexByteOffset, target := 34963 }]

/-- The per-view index accessor record of lines 166-174 of the source. -/
structure IndexAccessor where
  bufferView : ℕ
  byteOffset : ℕ
  componentType : ℕ
  count : ℕ
  type : String
  min : List JsVal
  max : List JsVal
deriving DecidableEq

/-- The object literal pushed at lines 166-174 of the source for one view:
component type 5123 (unsigned short), count equal to the indexCount of the
view, byteOffset equal to `sizeOfUint16 * view.indexOffset`, and min/max
from `getMinMax(indices, 1, view.indexOffset, view.indexCount)` (line 165),
i.e. scoped to the sub-range of the view. -/
def indexAccessorRecord (indices : List ℚ) (indexBufferViewIndex : ℕ) (view : View) :
    IndexAccessor :=
  let indicesMinMax := getMinMax indices 1 view.indexOffset view.indexCount
  { bufferView := indexBufferViewIndex
    byteOffset := sizeOfUint16 * view.indexOffset
    componentType := 5123
    count := view.indexCount
    type := "SCALAR"
    min := indicesMinMax.min
    max := indicesMinMax.max }

/-- A JavaScript value that a `push` call may target: either the plain
object literal that lines 131-132 of the source actually create
(`var indexAccessors = {};` and `var materials = {};`), or a genuine array. -/
inductive JsPushTarget (α : Type) where
  | plainObj : JsPushTarget α
  | array : List α → JsPushTarget α
deriving DecidableEq

/-- Calling `.push(x)` on a `JsPushTarget`: a plain object has no `push`
method, so the call raises a `TypeError`; an array appends. -/
def jsPush {α : Type} : JsPushTarget α → α → Except String (JsPushTarget α)
  | .plainObj, _ => .error "push is not a function"
  | .array l, x => .ok (.array (l ++ [x]))

/-- Lines 131 and 162-174 of the source: `indexAccessors` starts as the
plain object `{}` and the loop over the views pushes one index-accessor
record per view into it.  Because a plain object has no `push` method the
first iteration raises a `TypeError`; with no views the loop body never
runs and the plain object survives. -/
def buildIndexAccessors (indices : List ℚ) (indexBufferViewIndex : ℕ) (views : List View) :
    Except String (JsPushTarget IndexAccessor) :=
  views.foldlM
    (fun acc view => jsPush acc (indexAccessorRecord indices indexBufferViewIndex view))
    .plainObj

/-- The sampler record of lines 185-190 of the source. -/
structure Sampler where
  magFilter : ℕ
  minFilter : ℕ
  wrapS : ℕ
  wrapT : ℕ
deriving DecidableEq

/-- The single sampler created at lines 185-190: linear mag and min
filtering (9729), repeat wrap on both axes (10497). -/
def defaultSampler : Sampler :=
  { magFilter := 9729, minFilter := 9729, wrapS := 10497, wrapT := 10497 }

/-- An image record (lines 194-196 of the source). -/
structure ImageRec where
  uri : String
deriving DecidableEq

/-- A texture record (lines 197-200 of the source). -/
structure TextureRec where
  sampler : ℕ
  source : ℕ
deriving DecidableEq

/-- Whether a view references a texture: line 181 of the source,
`typeof baseColor === 'string'`. -/
def isTextured (v : View) : Bool :=
  match v.material.baseColor with
  | .uri _ => true
  | .rgba _ _ _ _ => false

/-- The `samplers` / `images` / `textures` trio: `none` models the state in
which all three variables are still `undefined` (lines 135-137 of the
source declare them without a value). -/
abbrev TexState : Type := Option (List Sampler × List ImageRec × List TextureRec)

/-- The image / texture / sampler bookkeeping of lines 181-200 of the
source, as a transition on the trio state: a textured view first
initialises the three arrays if they are still undefined (`samplers`
getting its single default entry), then appends one image with the URI and
one texture referencing sampler 0 and the image just appended; a
flat-color view leaves the state untouched.  In the source this code sits
AFTER the `indexAccessors.push` of line 166 in the same loop body, a call
that always raises, so the bookkeeping never executes; the transition is
therefore only invoked inside `viewIteration` below, sequenced behind that
failing push. -/
def texStep (st : TexState) (v : View) : TexState :=
  match v.material.baseColor with
  | .uri s =>
      let t := st.getD ([defaultSampler], [], [])
      some (t.1, t.2.1 ++ [{ uri := s }], t.2.2 ++ [{ sampler := 0, source := t.2.1.length }])
  | .rgba _ _ _ _ => st

/-- A vertex accessor record, lines 239-300 of the source.  JavaScript
objects are heterogeneous, so the fields that only some accessors carry
(`name`, `normalized`) are options here. -/
structure Accessor where
  bufferView : ℕ
  byteOffset : ℕ
  byteStride : ℕ
  componentType : ℕ
  count : ℕ
  type : String
  min : List JsVal
  max : List JsVal
  name : Option String
  normalized : Option Bool
deriving DecidableEq

/-- The value `vertexAccessors` holds after lines 239-300 of the source: a
JavaScript array (`arr`) plus the named property `accessor_vertexColor`
that line 276 assigns onto the array object. -/
structure VertexAccessorsObj where
  arr : List Accessor
  accessor_vertexColor : Option Accessor
deriving DecidableEq

/-- The vertex-color accessor object literal of lines 276-286 of the source:
component type 5121 (unsigned byte), type VEC4, normalized, min/max from
`getMinMax(vertexColors, 4)`. -/
def vertexColorAccessor (m : Mesh) (vertexColorBufferViewIndex vertexCount : ℕ) : Accessor :=
  let mm := getMinMaxD m.vertexColors 4
  { bufferView := vertexColorBufferViewIndex, byteOffset := 0, byteStride := 0
    componentType := 5121, count := vertexCount, type := "VEC4"
    min := mm.min, max := mm.max, name := none, normalized := some true }

/-- Lines 275-287 of the source: when the mesh has vertex colors, the
statement `vertexAccessors.accessor_vertexColor = { ... };` assigns the
vertex-color accessor to a NAMED PROPERTY of the array object instead of
pushing it, so the elements of the array are unchanged. -/
def addVertexColorAccessor (va : VertexAccessorsObj) (hasVC : Bool) (acc : Accessor) :
    VertexAccessorsObj :=
  if hasVC then { va with accessor_vertexColor := some acc } else va

/-- The batch-id accessor of lines 290-299 of the source: component type
5123, type SCALAR, count equal to the length of the batch-id array, min/max
from `getMinMax(batchIds, 1)`. -/
def batchIdAccessor (m : Mesh) (batchIdBufferViewIndex : ℕ) : Accessor :=
  let mm := getMinMaxD m.batchIds 1
  { bufferView := batchIdBufferViewIndex, byteOffset := 0, byteStride := 0
    componentType := 5123, count := m.batchIds.length, type := "SCALAR"
    min := mm.min, max := mm.max, name := none, normalized := none }

/-- Lines 289-300 of the source: the batch-id accessor is pushed onto the
array (a genuine push this time) when batch ids are enabled. -/
def addBatchIdAccessor (va : VertexAccessorsObj) (useBatchIds : Bool) (acc : Accessor) :
    VertexAccessorsObj :=
  if useBatchIds then { va with arr := va.arr ++ [acc] } else va

/-- `deprecated ? 'BATCHID' : '_BATCHID'`, line 109 of the source. -/
def batchIdSemantic (deprecated : Bool) : String :=
  if deprecated then "BATCHID" else "_BATCHID"

/-- The attribute map of one primitive, lines 217-229 of the source:
POSITION, NORMAL and TEXCOORD_0 always map to the three attribute
buffer-view indices; COLOR_0 is added exactly when the mesh has vertex
colors; the batch-id attribute (under the semantic chosen by the
`deprecated` flag) is added exactly when batch ids are enabled. -/
structure Attributes where
  POSITION : ℕ
  NORMAL : ℕ
  TEXCOORD_0 : ℕ
  COLOR_0 : Option ℕ
  batchAttr : Option (String × ℕ)
deriving DecidableEq

/-- Lines 217-229 of the source. -/
def buildAttributes (hasVC useBatchIds deprecated : Bool) : Attributes :=
  let idx := assignBufferViewIndices hasVC useBatchIds
  { POSITION := idx.position, NORMAL := idx.normal, TEXCOORD_0 := idx.uv
    COLOR_0 := if hasVC then some idx.vertexColor else none
    batchAttr := if useBatchIds then some (batchIdSemantic deprecated, idx.batchId) else none }

/-- A material entry as built by lines 176-215 of the source: a textured
view gets an opaque white base-color factor and the URI as its texture; a
flat-color view gets the RGBA color as the factor, is transparent exactly
when its alpha is below 1, and transparency selects BLEND and double-sided. -/
structure MaterialEntry where
  baseColorFactor : ℚ × ℚ × ℚ × ℚ
  baseColorTexture : Option String
  alphaMode : String
  doubleSided : Bool
deriving DecidableEq

/-- Lines 176-215 of the source, for one view. -/
def materialEntryFor (v : View) : MaterialEntry :=
  match v.material.baseColor with
  | .uri s =>
      { baseColorFactor := (1, 1, 1, 1), baseColorTexture := some s
        alphaMode := "OPAQUE", doubleSided := false }
  | .rgba r g b a =>
      { baseColorFactor := (r, g, b, a), baseColorTexture := none
        alphaMode := if a < 1 then "BLEND" else "OPAQUE"
        doubleSided := decide (a < 1) }

/-- A primitive record, lines 231-236 of the source: the indices and
material fields both equal the position of the view in the list. -/
structure Primitive where
  attributes : Attributes
  indices : ℕ
  material : ℕ
  mode : ℕ
deriving DecidableEq

/-- The mutable state of the loop of lines 161-237 of the source: the two
plain objects `indexAccessors` and `materials` (lines 131-132), the
primitives array (line 133), and the image / texture / sampler trio
(lines 135-137, initially all undefined). -/
structure ViewsLoopState where
  indexAccessors : JsPushTarget IndexAccessor
  materials : JsPushTarget MaterialEntry
  primitives : List Primitive
  tex : TexState
deriving DecidableEq

/-- One iteration of the loop of lines 161-237 of the source, for the view
at position `iv.1`, with the statements in source order: lines 165-174
build the index-accessor record and push it — a push that raises
`TypeError`, since `indexAccessors` is the plain object of line 131 — then
lines 176-203 run the material and image / texture / sampler bookkeeping,
line 208 pushes the material entry (onto the plain object of line 132),
and lines 217-236 build the attribute map and push the primitive.  The
`Except` sequencing enforces that every step after the first failing one
never executes. -/
def viewIteration (indices : List ℚ) (idxBV : ℕ) (hasVC useBatchIds deprecated : Bool)
    (st : ViewsLoopState) (iv : ℕ × View) : Except String ViewsLoopState := do
  let idxAcc ← jsPush st.indexAccessors (indexAccessorRecord indices idxBV iv.2)
  let tex := texStep st.tex iv.2
  let mats ← jsPush st.materials (materialEntryFor iv.2)
  .ok { indexAccessors := idxAcc, materials := mats
        primitives := st.primitives ++
          [{ attributes := buildAttributes hasVC useBatchIds deprecated
             indices := iv.1, material := iv.1, mode := 4 }]
        tex := tex }

/-- The loop of lines 161-237 of the source over all views (paired with
their positions), from the initial state of lines 131-137.  With at least
one view the first iteration raises the `TypeError` of line 166 and the
loop aborts there; in particular the image / texture / sampler code of
lines 181-200 and the primitive pushes never run. -/
def runViewsLoop (indices : List ℚ) (idxBV : ℕ) (hasVC useBatchIds deprecated : Bool)
    (views : List View) : Except String ViewsLoopState :=
  views.enum.foldlM (viewIteration indices idxBV hasVC useBatchIds deprecated)
    { indexAccessors := .plainObj, materials := .plainObj, primitives := [], tex := none }

/-- Lines 239-273 of the source build the base array of the three vertex
accessors (positions, normals, uvs).  Line 247 reads the identifier
`positionsMinMax`, but the declaration at line 75 is `positionMinMax`
(without the `s`); under the strict mode of line 1, reading an undeclared
identifier raises a `ReferenceError`, so building the base array always
fails in the source. -/
def buildBaseVertexAccessors : Except String (List Accessor) :=
  .error "positionsMinMax is not defined"

/-- The recognised option fields of `createGltf` (lines 25-42 of the
source); each is optional, with `defaultValue` supplying the default.
`textureCompressionOptions` is an opaque payload, modelled as a string. -/
structure Options where
  useBatchIds : Option Bool
  relativeToCenter : Option Bool
  quantization : Option Bool
  deprecated : Option Bool
  textureCompressionOptions : Option String
  upAxis : Option String
deriving DecidableEq

/-- Lines 76-80 of the source serialize the position stream.  The
allocation of line 77 succeeds, but the loop body at line 79 reads the
undeclared identifier `position` (the declared variable is `positions`),
so under the strict mode of line 1 the first iteration raises a
`ReferenceError`; only when the position stream is empty does the loop
body never run, letting execution continue. -/
def fillPositionBuffer (positions : List ℚ) : Except String Unit :=
  if positions.length = 0 then .ok () else .error "position is not defined"

/-- Modelled from the spec: `mesh.getVertexCount()` (line 125 of the
source) is a method of the Mesh class, which is not under `src/`; the spec
fixes three position components per vertex, so the vertex count is a third
of the flat position length. -/
def getVertexCount (m : Mesh) : ℕ := m.positions.length / 3

/-- The completed asset description of lines 275-395 of the source: the
value the function would hand to the GLB packer.  No execution ever
constructs it — the invocation raises at line 79, 166 or 247 first — and
accordingly it is only ever built behind those error points in the
`Except` chain of `buildGltf`.  Line 302 merges the vertex accessors and
the index accessors with the object-merging `combine`; the two parts are
kept separate here, the second living inside the loop state.  The byte
contents of the attribute streams (IEEE-754 float serialisation) are
outside the model; the buffer is represented by its layout, which fixes
every byte offset and length. -/
structure FullGltf where
  hasVC : Bool
  layout : Layout
  bufferViews : List BufferView
  vertexAccessors : VertexAccessorsObj
  loop : ViewsLoopState
  rootNode : NodeRec
  rtcExtension : Option (ℚ × ℚ × ℚ)
deriving DecidableEq

/-- The observable outcome of one invocation of `createGltf`: the state
the input mesh is left in (the line-60 mutation runs before any failure
point) and the result — the asset description, or the first error
raised. -/
structure RunOut where
  meshAfter : Mesh
  result : Except String FullGltf
deriving DecidableEq

/-- `createGltf` (lines 36-395 of the source) over the model.  Option
defaults are applied as at lines 37-42; `quantization` and
`textureCompressionOptions` are read there and never used afterwards
(line 392 is the TODO note deferring them).  Before any failure point the
mesh is recentered in place when `relativeToCenter` is set (lines 56-61)
and the root matrix is selected (lines 63-72).  The `Except` chain then
sequences the failure points in source order: the position serialisation
of line 79 (raises unless the position stream is empty), the views loop of
lines 161-237 (line 166 raises on the first view), and the vertex-accessor
construction of line 247 (always raises); only past all three would the
remaining pieces (lines 275-395) be assembled, so no piece the source
never reaches appears in a result that an error precedes. -/
def buildGltf (m : Mesh) (o : Options) : RunOut :=
  let useBatchIds := o.useBatchIds.getD true
  let relativeToCenter := o.relativeToCenter.getD false
  let deprecated := o.deprecated.getD false
  let upAxis := defaultUpAxis o.upAxis
  let hv := hasVertexColors m.vertexColors
  let mAfter := meshAfterCreateGltf m relativeToCenter
  let rootMatrix := computeRootMatrix upAxis
  { meshAfter := mAfter
    result := do
      let _ ← fillPositionBuffer mAfter.positions
      let loopState ← runViewsLoop mAfter.indices
        (assignBufferViewIndices hv useBatchIds).index hv useBatchIds deprecated mAfter.views
      let base ← buildBaseVertexAccessors
      .ok { hasVC := hv
            layout := computeLayout mAfter useBatchIds
            bufferViews := buildBufferViews mAfter useBatchIds
            vertexAccessors :=
              addBatchIdAccessor
                (addVertexColorAccessor { arr := base, accessor_vertexColor := none } hv
                  (vertexColorAccessor mAfter
                    (assignBufferViewIndices hv useBatchIds).vertexColor
                    (getVertexCount mAfter)))
                useBatchIds
                (batchIdAccessor mAfter (assignBufferViewIndices hv useBatchIds).batchId)
            loop := loopState
            rootNode := { matrix := rootMatrix, mesh := 0, name := "rootNode" }
            rtcExtension := if relativeToCenter then some m.center else none } }

/-- The input values of a flat array at the positions congruent to `j`
modulo the component arity `c`: the sub-sequence a per-component extremum
is supposed to range over. -/
def valsAtRes (array : List ℚ) (c j : ℕ) : List ℚ :=
  ((List.range array.length).filter (fun k => k % c == j)).filterMap array.get?

/-- `m` is the minimum of the list `l` in the sense of the source values:
a finite value that belongs to `l` and is a lower bound of `l`, or the
`+Infinity` seed exactly when `l` is empty. -/
def isMinOf (m : JsVal) (l : List ℚ) : Prop :=
  match m with
  | .fin q => q ∈ l ∧ ∀ x ∈ l, q ≤ x
  | .posInf => l = []
  | _ => False

/-- `m` is the maximum of the list `l`: a finite member that is an upper
bound, or the `-Infinity` seed exactly when `l` is empty. -/
def isMaxOf (m : JsVal) (l : List ℚ) : Prop :=
  match m with
  | .fin q => q ∈ l ∧ ∀ x ∈ l, x ≤ q
  | .negInf => l = []
  | _ => False

/-- The running-total offsets of a list of segment lengths: entry `i` is
the sum of the lengths before position `i`. -/
def prefixSums : List ℕ → List ℕ
  | [] => []
  | x :: xs => 0 :: (prefixSums xs).map (fun s => x + s)

/-- A small concrete mesh used to instantiate theorems: one triangle-free
vertex, a single flat-color view, an all-zero vertex-color stream, and a
nonzero center. -/
def sampleMesh : Mesh :=
  { positions := [1, 2, 3], normals := [0, 0, 1], uvs := [0, 0]
    vertexColors := [0, 0, 0, 0], batchIds := [0], indices := [0]
    views := [{ indexOffset := 0, indexCount := 1, material := { baseColor := .rgba 1 0 0 1 } }]
    center := (1, 1, 1) }

/-- A concrete index stream with two disjoint sub-ranges of clearly
different value ranges. -/
def c1Indices : List ℚ := [0, 1, 2, 10, 11, 12]

/-- Two views covering the two halves of `c1Indices`. -/
def c1Views : List View :=
  [{ indexOffset := 0, indexCount := 3, material := { baseColor := .rgba 1 0 0 1 } },
   { indexOffset := 3, indexCount := 3, material := { baseColor := .rgba 0 1 0 1 } }]

/-- A concrete mesh whose vertex-color stream has nonzero entries. -/
def c3Mesh : Mesh :=
  { positions := [0, 0, 0], normals := [0, 0, 1], uvs := [0, 0]
    vertexColors := [10, 20, 30, 255], batchIds := [0], indices := [0]
    views := [{ indexOffset := 0, indexCount := 1, material := { baseColor := .rgba 1 1 1 1 } }]
    center := (0, 0, 0) }

/-- Concrete views mixing two texture-referenced materials with a
flat-color material. -/
def c8Views : List View :=
  [{ indexOffset := 0, indexCount := 3, material := { baseColor := .uri "left.png" } },
   { indexOffset := 3, indexCount := 3, material := { baseColor := .rgba 1 0 0 1 } },
   { indexOffset := 6, indexCount := 3, material := { baseColor := .uri "right.png" } }]

/-! Helper lemmas about the `Math.min` / `Math.max` folds of `getMinMax`. -/

theorem foldl_jsMin_fin (l : List ℚ) (a : ℚ) :
    (l.map JsVal.fin).foldl jsMin (.fin a) = .fin (l.foldl min a) := by
  induction l generalizing a with
  | nil => rfl
  | cons b t ih =>
      simp only [List.map_cons, List.foldl_cons]
      exact ih (min a b)

theorem foldl_jsMax_fin (l : List ℚ) (a : ℚ) :
    (l.map JsVal.fin).foldl jsMax (.fin a) = .fin (l.foldl max a) := by
  induction l generalizing a with
  | nil => rfl
  | cons b t ih =>
      simp only [List.map_cons, List.foldl_cons]
      exact ih (max a b)

theorem foldl_jsMin_posInf (l : List ℚ) :
    (l.map JsVal.fin).foldl jsMin .posInf =
      (match l with
        | [] => JsVal.posInf
        | x :: xs => JsVal.fin (xs.foldl min x)) := by
  cases l with
  | nil => rfl
  | cons x xs =>
      simp only [List.map_cons, List.foldl_cons]
      exact foldl_jsMin_fin xs x

theorem foldl_jsMax_negInf (l : List ℚ) :
    (l.map JsVal.fin).foldl jsMax .negInf =
      (match l with
        | [] => JsVal.negInf
        | x :: xs => JsVal.fin (xs.foldl max x)) := by
  cases l with
  | nil => rfl
  | cons x xs =>
      simp only [List.map_cons, List.foldl_cons]
      exact foldl_jsMax_fin xs x

theorem foldl_min_le_init (l : List ℚ) (a : ℚ) : l.foldl min a ≤ a := by
  induction l generalizing a with
  | nil => exact le_refl a
  | cons b t ih => exact le_trans (ih (min a b)) (min_le_left a b)

theorem foldl_min_le_mem (l : List ℚ) (x : ℚ) : x ∈ l → ∀ a, l.foldl min a ≤ x := by
  induction l with
  | nil => intro hx; cases hx
  | cons b t ih =>
      intro hx a
      simp only [List.foldl_cons]
      rcases List.mem_cons.mp hx with h | h
      · subst h
        exact le_trans (foldl_min_le_init t (min a x)) (min_le_right a x)
      · exact ih h (min a b)

theorem foldl_min_mem (l : List ℚ) (a : ℚ) : l.foldl min a = a ∨ l.foldl min a ∈ l := by
  induction l generalizing a with
  | nil => exact Or.inl rfl
  | cons b t ih =>
      rcases ih (min a b) with h | h
      · rcases min_choice a b with hm | hm
        · exact Or.inl (by rw [List.foldl_cons, h, hm])
        · exact Or.inr (by rw [List.foldl_cons, h, hm]; exact List.mem_cons_self b t)
      · exact Or.inr (List.mem_cons_of_mem b h)

theorem foldl_max_init_le (l : List ℚ) (a : ℚ) : a ≤ l.foldl max a := by
  induction l generalizing a with
  | nil => exact le_refl a
  | cons b t ih => exact le_trans (le_max_left a b) (ih (max a b))

theorem foldl_max_mem_le (l : List ℚ) (x : ℚ) : x ∈ l → ∀ a, x ≤ l.foldl max a := by
  induction l with
  | nil => intro hx; cases hx
  | cons b t ih =>
      intro hx a
      simp only [List.foldl_cons]
      rcases List.mem_cons.mp hx with h | h
      · subst h
        exact le_trans (le_max_right a x) (foldl_max_init_le t (max a x))
      · exact ih h (max a b)

theorem foldl_max_mem (l : List ℚ) (a : ℚ) : l.foldl max a = a ∨ l.foldl max a ∈ l := by
  induction l generalizing a with
  | nil => exact Or.inl rfl
  | cons b t ih =>
      rcases ih (max a b) with h | h
      · rcases max_choice a b with hm | hm
        · exact Or.inl (by rw [List.foldl_cons, h, hm])
        · exact Or.inr (by rw [List.foldl_cons, h, hm]; exact List.mem_cons_self b t)
      · exact Or.inr (List.mem_cons_of_mem b h)

theorem arrGet_eq_fin (a : List ℚ) (k : ℕ) (hk : k < a.length) :
    arrGet a k = .fin (a.getD k 0) := by
  have h := List.get?_eq_get hk
  rw [arrGet, h, List.getD_eq_get?, h]
  rfl

theorem getD_map_range {α : Type} (f : ℕ → α) (c j : ℕ) (d : α) (hj : j < c) :
    ((List.range c).map f).getD j d = f j := by
  rw [List.getD_eq_get?, List.get?_map, List.get?_range hj]
  rfl

theorem mul_add_lt_of_dvd (c i j N : ℕ) (hj : j < c) (hi : i < N) :
    i * c + j < c * N := by
  have h1 : i * c + j < (i + 1) * c := by
    rw [add_mul, one_mul]
    omega
  have h2 : (i + 1) * c ≤ N * c := Nat.mul_le_mul_right c hi
  calc i * c + j < (i + 1) * c := h1
    _ ≤ N * c := h2
    _ = c * N := Nat.mul_comm N c

theorem mem_valsAtRes_iff (array : List ℚ) (c j : ℕ) (hc : 0 < c)
    (hdvd : c ∣ array.length) (hj : j < c) (q : ℚ) :
    q ∈ valsAtRes array c j ↔
      ∃ i, i < array.length / c ∧ array.getD (i * c + j) 0 = q := by
  obtain ⟨N, hN⟩ := hdvd
  have hdiv : array.length / c = N := by rw [hN, Nat.mul_div_cancel_left N hc]
  rw [valsAtRes]
  simp only [List.mem_filterMap, List.mem_filter, List.mem_range, beq_iff_eq, hdiv]
  constructor
  · rintro ⟨k, ⟨hk, hkc⟩, hget⟩
    refine ⟨k / c, ?_, ?_⟩
    · rw [Nat.div_lt_iff_lt_mul hc]
      rw [hN] at hk
      calc k < c * N := hk
        _ = N * c := Nat.mul_comm c N
    · have hkeq : k / c * c + j = k := by
        have := Nat.div_add_mod k c
        rw [hkc] at this
        rw [Nat.mul_comm]
        exact this
      rw [hkeq, List.getD_eq_get?, hget]
      rfl
  · rintro ⟨i, hi, hgd⟩
    have hlt : i * c + j < array.length := by
      rw [hN]
      exact mul_add_lt_of_dvd c i j N hj (hdiv ▸ hi)
    refine ⟨i * c + j, ⟨hlt, ?_⟩, ?_⟩
    · rw [Nat.mul_comm i c, Nat.mul_add_mod c i j, Nat.mod_eq_of_lt hj]
    · have h := List.get?_eq_get hlt
      rw [h]
      rw [List.getD_eq_get?, h] at hgd
      exact congrArg some hgd

theorem isMinOf_foldl (w l : List ℚ) (hmem : ∀ q, q ∈ w ↔ q ∈ l) :
    isMinOf ((w.map JsVal.fin).foldl jsMin .posInf) l := by
  cases w with
  | nil =>
      simp only [List.map_nil, List.foldl_nil, isMinOf]
      rw [List.eq_nil_iff_forall_not_mem]
      intro q hq
      exact absurd ((hmem q).mpr hq) (List.not_mem_nil q)
  | cons x xs =>
      simp only [List.map_cons, List.foldl_cons]
      have hred : (xs.map JsVal.fin).foldl jsMin (jsMin .posInf (.fin x))
          = .fin (xs.foldl min x) := foldl_jsMin_fin xs x
      rw [hred]
      simp only [isMinOf]
      constructor
      · apply (hmem _).mp
        rcases foldl_min_mem xs x with h | h
        · rw [h]; exact List.mem_cons_self x xs
        · exact List.mem_cons_of_mem x h
      · intro y hy
        rcases List.mem_cons.mp ((hmem y).mpr hy) with h | h
        · rw [h]; exact foldl_min_le_init xs x
        · exact foldl_min_le_mem xs y h x

theorem isMaxOf_foldl (w l : List ℚ) (hmem : ∀ q, q ∈ w ↔ q ∈ l) :
    isMaxOf ((w.map JsVal.fin).foldl jsMax .negInf) l := by
  cases w with
  | nil =>
      simp only [List.map_nil, List.foldl_nil, isMaxOf]
      rw [List.eq_nil_iff_forall_not_mem]
      intro q hq
      exact absurd ((hmem q).mpr hq) (List.not_mem_nil q)
  | cons x xs =>
      simp only [List.map_cons, List.foldl_cons]
      have hred : (xs.map JsVal.fin).foldl jsMax (jsMax .negInf (.fin x))
          = .fin (xs.foldl max x) := foldl_jsMax_fin xs x
      rw [hred]
      simp only [isMaxOf]
      constructor
      · apply (hmem _).mp
        rcases foldl_max_mem xs x with h | h
        · rw [h]; exact List.mem_cons_self x xs
        · exact List.mem_cons_of_mem x h
      · intro y hy
        rcases List.mem_cons.mp ((hmem y).mpr hy) with h | h
        · rw [h]; exact foldl_max_init_le xs x
        · exact foldl_max_mem_le xs y h x

/-- Claim C4: for every flat numeric input sequence and component arity
(positive, and dividing the input length, as at every call site of the
source), the extrema computed by `getMinMax` over the whole sequence
satisfy: the min and max arrays have length equal to the arity, and for
each component `j` below the arity, entry `j` of min (resp. max) is the
minimum (resp. maximum) of the input values at positions congruent to `j`
modulo the arity (the infinity seed surviving exactly when the scanned
sub-sequence is empty). -/
theorem c4_per_component_extrema (array : List ℚ) (c : ℕ) (hc : 0 < c)
    (hdvd : c ∣ array.length) :
    (getMinMaxD array c).min.length = c ∧
    (getMinMaxD array c).max.length = c ∧
    ∀ j, j < c →
      isMinOf ((getMinMaxD array c).min.getD j .nan) (valsAtRes array c j) ∧
      isMaxOf ((getMinMaxD array c).max.getD j .nan) (valsAtRes array c j) := by
  have hc0 : c ≠ 0 := Nat.pos_iff_ne_zero.mp hc
  obtain ⟨N, hN⟩ := hdvd
  have hdiv : array.length / c = N := by rw [hN, Nat.mul_div_cancel_left N hc]
  have hiter : jsIterCount array.length c = N := by
    rw [jsIterCount, if_neg hc0, hN]
    have h1 : c * N + c - 1 = (c - 1) + c * N := by
      have hcc := hc
      set M := c * N
      omega
    rw [h1, Nat.add_mul_div_left (c - 1) N hc, Nat.div_eq_of_lt (by omega)]
    omega
  have hmap : ∀ j, j < c →
      (List.range N).map (fun i => arrGet array (0 + i * c + j))
        = ((List.range N).map (fun i => array.getD (i * c + j) 0)).map JsVal.fin := by
    intro j hj
    rw [List.map_map]
    apply List.map_congr_left
    intro i hi
    have hiN : i < N := List.mem_range.mp hi
    have hlt : i * c + j < array.length := by
      rw [hN]; exact mul_add_lt_of_dvd c i j N hj hiN
    show arrGet array (0 + i * c + j) = JsVal.fin (array.getD (i * c + j) 0)
    rw [Nat.zero_add]
    exact arrGet_eq_fin array _ hlt
  have hmem : ∀ j, j < c → ∀ q : ℚ,
      q ∈ (List.range N).map (fun i => array.getD (i * c + j) 0) ↔
        q ∈ valsAtRes array c j := by
    intro j hj q
    rw [mem_valsAtRes_iff array c j hc ⟨N, hN⟩ hj q, hdiv]
    simp only [List.mem_map, List.mem_range]
  refine ⟨?_, ?_, ?_⟩
  · simp [getMinMaxD, getMinMax]
  · simp [getMinMaxD, getMinMax]
  · intro j hj
    constructor
    · have hval : (getMinMaxD array c).min.getD j .nan
          = (((List.range N).map (fun i => array.getD (i * c + j) 0)).map JsVal.fin).foldl
              jsMin .posInf := by
        rw [getMinMaxD, getMinMax]
        rw [getD_map_range _ c j _ hj, hiter, hmap j hj]
      rw [hval]
      exact isMinOf_foldl _ _ (hmem j hj)
    · have hval : (getMinMaxD array c).max.getD j .nan
          = (((List.range N).map (fun i => array.getD (i * c + j) 0)).map JsVal.fin).foldl
              jsMax .negInf := by
        rw [getMinMaxD, getMinMax]
        rw [getD_map_range _ c j _ hj, hiter, hmap j hj]
      rw [hval]
      exact isMaxOf_foldl _ _ (hmem j hj)

/-- Witness for C4 at the concrete array `[3, 1, 5, 2]` with arity 2:
component 0 scans `[3, 5]` and component 1 scans `[1, 2]`. -/
theorem c4_witness :
    (getMinMaxD [3, 1, 5, 2] 2).min.length = 2 ∧
    isMinOf ((getMinMaxD [3, 1, 5, 2] 2).min.getD 0 .nan) (valsAtRes [3, 1, 5, 2] 2 0) ∧
    isMaxOf ((getMinMaxD [3, 1, 5, 2] 2).max.getD 1 .nan) (valsAtRes [3, 1, 5, 2] 2 1) := by
  have h := c4_per_component_extrema [3, 1, 5, 2] 2 (by decide) (by decide)
  exact ⟨h.1, (h.2.2 0 (by decide)).1, (h.2.2 1 (by decide)).2⟩

/-- Claim C2 (code bug): the layout arithmetic of the source text is as
the claim describes — the offsets of lines 147-159 are the running totals
of the segment byte lengths in the fixed order positions, normals, uvs,
vertex colors (if present), batch ids (if present), indices, with absent
optional segments contributing nothing, and the total equals their sum —
but no invocation ever builds the buffer or records an offset: for any
mesh with a nonempty position stream the loop at line 79 raises a
`ReferenceError` (undeclared `position`) before the `Buffer.concat` of
line 127 runs, as the last two conjuncts show at the sample mesh (a mesh
with empty positions raises at line 166 or 247 instead, still before any
output exists). -/
theorem c2_buffer_never_built :
    (∀ (m : Mesh) (ub : Bool),
    (computeLayout m ub).positionByteOffset = 0 ∧
    (computeLayout m ub).normalByteOffset = positionBufferLength m ∧
    (computeLayout m ub).uvByteOffset = positionBufferLength m + normalBufferLength m ∧
    (computeLayout m ub).vertexColorByteOffset =
      positionBufferLength m + normalBufferLength m + uvBufferLength m ∧
    (computeLayout m ub).batchIdByteOffset =
      positionBufferLength m + normalBufferLength m + uvBufferLength m +
        vertexColorBufferLength m ∧
    (computeLayout m ub).indexByteOffset =
      positionBufferLength m + normalBufferLength m + uvBufferLength m +
        vertexColorBufferLength m + batchIdBufferLength m ub ∧
    (computeLayout m ub).byteLength =
      positionBufferLength m + normalBufferLength m + uvBufferLength m +
        vertexColorBufferLength m + batchIdBufferLength m ub + indexBufferLength m ∧
    (buildBufferViews m ub).map (fun bv => bv.byteLength) =
      [positionBufferLength m, normalBufferLength m, uvBufferLength m]
        ++ (if hasVertexColors m.vertexColors then [vertexColorBufferLength m] else [])
        ++ (if ub then [batchIdBufferLength m ub] else [])
        ++ [indexBufferLength m] ∧
    (buildBufferViews m ub).map (fun bv => bv.byteOffset) =
      prefixSums ((buildBufferViews m ub).map (fun bv => bv.byteLength)) ∧
    ((buildBufferViews m ub).map (fun bv => bv.byteLength)).sum =
      (computeLayout m ub).byteLength) ∧
    fillPositionBuffer sampleMesh.positions = .error "position is not defined" ∧
    (buildGltf sampleMesh
        { useBatchIds := none, relativeToCenter := none, quantization := none,
          deprecated := none, textureCompressionOptions := none,
          upAxis := none }).result = .error "position is not defined" := by
  refine ⟨fun m ub => ?_, rfl, rfl⟩
  cases hvc : hasVertexColors m.vertexColors <;> cases ub <;>
    simp [computeLayout, buildBufferViews, prefixSums, vertexColorBufferLength,
      batchIdBufferLength, hvc] <;>
    omega

/-- Claim C5: the root matrix is determined solely by the `upAxis` option:
for Z it is the identity matrix, for Y — the default when the option is
absent — it is the fixed rotation matrix converting z-up to y-up (it sends
the z-up up-vector to the y-up up-vector, while the identity leaves it). -/
theorem c5_root_matrix (o : Option String) :
    (o = some "Z" → computeRootMatrix (defaultUpAxis o) = some identityMatrix) ∧
    ((o = none ∨ o = some "Y") → computeRootMatrix (defaultUpAxis o) = some zUpToYUpMatrix) ∧
    matApply zUpToYUpMatrix (0, 0, 1) = (0, 1, 0) ∧
    matApply identityMatrix (0, 0, 1) = (0, 0, 1) := by
  refine ⟨?_, ?_, by decide, by decide⟩
  · rintro rfl; decide
  · rintro (rfl | rfl) <;> decide

/-- Witness for C5: the Z case gives the identity and the absent-option
default gives the z-up-to-y-up rotation. -/
theorem c5_witness :
    computeRootMatrix (defaultUpAxis (some "Z")) = some identityMatrix ∧
    computeRootMatrix (defaultUpAxis none) = some zUpToYUpMatrix :=
  ⟨(c5_root_matrix (some "Z")).1 rfl, (c5_root_matrix none).2.1 (Or.inl rfl)⟩

theorem except_bind_toOption_none {α β : Type} (x : Except String α)
    (k : α → Except String β) (hk : ∀ a, (k a).toOption = none) :
    (x.bind k).toOption = none := by
  cases x with
  | error e => rfl
  | ok a => exact hk a

/-- Every invocation raises before producing an asset: the `Except` chain
of `buildGltf` passes through the vertex-accessor construction of line
247, which always raises (and is itself preceded by the possible raises at
lines 79 and 166), so the result is an error — never an asset — for every
mesh and every option record. -/
theorem run_never_ok (m : Mesh) (o : Options) : (buildGltf m o).result.toOption = none := by
  exact except_bind_toOption_none _ _ (fun _ =>
    except_bind_toOption_none _ _ (fun _ => rfl))

/-- Claim C6: for an unrecognised `upAxis` value the invocation yields an
error and never an asset.  Lines 63-72 perform no validation of their own
— neither branch fires, so no recognised root matrix is silently selected
and `rootMatrix` is left undefined (first conjunct) — but the invocation
then raises (at line 79, 166 or 247) before any asset exists (second
conjunct), so the core indeed fails with an error rather than silently
defaulting or producing an asset; the error raised is the same one every
recognised up-axis value gets, not an up-axis check. -/
theorem c6_error_no_asset (m : Mesh) (o : Options) (u : String)
    (hu : o.upAxis = some u) (h1 : u ≠ "Y") (h2 : u ≠ "Z") :
    computeRootMatrix (defaultUpAxis o.upAxis) = none ∧
    (buildGltf m o).result.toOption = none := by
  constructor
  · rw [hu]
    show computeRootMatrix u = none
    rw [computeRootMatrix, if_neg h1, if_neg h2]
  · exact run_never_ok m o

/-- Witness for C6 at the unrecognised value `X` on the sample mesh. -/
theorem c6_witness :
    computeRootMatrix (defaultUpAxis (some "X")) = none ∧
    (buildGltf sampleMesh
        { useBatchIds := none, relativeToCenter := none, quantization := none,
          deprecated := none, textureCompressionOptions := none,
          upAxis := some "X" }).result.toOption = none :=
  c6_error_no_asset sampleMesh
    { useBatchIds := none, relativeToCenter := none, quantization := none,
      deprecated := none, textureCompressionOptions := none, upAxis := some "X" }
    "X" rfl (by decide) (by decide)

/-- Counterexample to claim C7: with `relativeToCenter` set, the core
itself calls the recenter-in-place mutation (line 60 of the source), so
after the invocation the positions of the input mesh are changed. -/
theorem c7_counterexample :
    (buildGltf sampleMesh
        { useBatchIds := none, relativeToCenter := some true, quantization := none,
          deprecated := none, textureCompressionOptions := none,
          upAxis := none }).meshAfter.positions ≠ sampleMesh.positions := by
  intro h
  have h0 := congrArg (fun l => l.getD 0 1) h
  simp [buildGltf, meshAfterCreateGltf, subtractCenter, sampleMesh, centerComponent,
    List.enum] at h0

/-- Claim C7 as amended: the core leaves the mesh unchanged when
`relativeToCenter` is false (the default); when it is true, the core itself
invokes the recenter-in-place mutation before encoding, so the positions
become the center-subtracted positions while every other mesh field is
unchanged. -/
theorem c7_amended (m : Mesh) :
    meshAfterCreateGltf m false = m ∧
    (meshAfterCreateGltf m true).positions = subtractCenter m.positions m.center ∧
    (meshAfterCreateGltf m true).normals = m.normals ∧
    (meshAfterCreateGltf m true).uvs = m.uvs ∧
    (meshAfterCreateGltf m true).vertexColors = m.vertexColors ∧
    (meshAfterCreateGltf m true).batchIds = m.batchIds ∧
    (meshAfterCreateGltf m true).indices = m.indices ∧
    (meshAfterCreateGltf m true).views = m.views ∧
    (meshAfterCreateGltf m true).center = m.center := by
  simp [meshAfterCreateGltf]

/-- Claim C9: two invocations on the same mesh whose options agree on
everything except `quantization` and `textureCompressionOptions` produce
the same asset description — those two options are accepted but have no
effect. -/
theorem c9_reserved_options_no_effect (m : Mesh) (o1 o2 : Options)
    (h1 : o1.useBatchIds = o2.useBatchIds)
    (h2 : o1.relativeToCenter = o2.relativeToCenter)
    (h3 : o1.deprecated = o2.deprecated)
    (h4 : o1.upAxis = o2.upAxis) :
    buildGltf m o1 = buildGltf m o2 := by
  obtain ⟨u1, r1, q1, d1, t1, up1⟩ := o1
  obtain ⟨u2, r2, q2, d2, t2, up2⟩ := o2
  simp only at h1 h2 h3 h4
  subst h1; subst h2; subst h3; subst h4
  rfl

/-- Witness for C9: the sample mesh with two option records differing only
in the reserved options. -/
theorem c9_witness :
    buildGltf sampleMesh
        { useBatchIds := some true, relativeToCenter := some false, quantization := some true,
          deprecated := none, textureCompressionOptions := some "etc1", upAxis := some "Y" } =
      buildGltf sampleMesh
        { useBatchIds := some true, relativeToCenter := some false, quantization := some false,
          deprecated := none, textureCompressionOptions := none, upAxis := some "Y" } :=
  c9_reserved_options_no_effect sampleMesh _ _ rfl rfl rfl rfl

/-- Claim C10: `getMinMax` on an empty range — an empty input sequence or
a zero-length sub-range, in particular a view with `indexCount = 0` —
returns min positive infinity and max negative infinity for every
component, and the per-view index accessor record places these sentinel
bounds unchanged. -/
theorem c10_empty_range_sentinels (array : List ℚ) (c start : ℕ) (indices : List ℚ)
    (bvi : ℕ) (view : View) (h : view.indexCount = 0) :
    getMinMax array c start 0 =
      { min := List.replicate c .posInf, max := List.replicate c .negInf } ∧
    (indexAccessorRecord indices bvi view).min = [.posInf] ∧
    (indexAccessorRecord indices bvi view).max = [.negInf] := by
  have key : ∀ (a : List ℚ) (cc s : ℕ), getMinMax a cc s 0 =
      { min := List.replicate cc JsVal.posInf, max := List.replicate cc JsVal.negInf } := by
    intro a cc s
    have hit : jsIterCount 0 cc = 0 := by
      rw [jsIterCount]
      rcases Nat.eq_zero_or_pos cc with h0 | h0
      · rw [if_pos h0]
      · rw [if_neg (Nat.pos_iff_ne_zero.mp h0)]
        exact Nat.div_eq_of_lt (by omega)
    rw [getMinMax, hit]
    simp [List.map_const']
  refine ⟨key array c start, ?_, ?_⟩
  · rw [indexAccessorRecord]
    simp [h, key]
  · rw [indexAccessorRecord]
    simp [h, key]

/-- Witness for C10 at concrete inputs: an empty array with arity 3, and a
view of index count zero at offset 1 into the index stream `[5, 6]`. -/
theorem c10_witness :
    getMinMax ([] : List ℚ) 3 0 0 =
      { min := List.replicate 3 .posInf, max := List.replicate 3 .negInf } ∧
    (indexAccessorRecord [5, 6] 4
        { indexOffset := 1, indexCount := 0,
          material := { baseColor := .rgba 0 0 0 1 } }).min = [.posInf] ∧
    (indexAccessorRecord [5, 6] 4
        { indexOffset := 1, indexCount := 0,
          material := { baseColor := .rgba 0 0 0 1 } }).max = [.negInf] :=
  c10_empty_range_sentinels [] 3 0 [5, 6] 4 _ rfl

/-- Claim C1 (code bug): evaluation at a concrete failing input.  The index
accessor record built for each view does carry the claimed fields — count
equal to the indexCount of the view, byteOffset equal to the indexOffset
scaled by the 2-byte index size, and min/max scoped to the sub-range of
that view (the two views below get the disjoint bounds 0..2 and 10..12,
never the whole-buffer bounds) — but no accessor is ever emitted, because
`indexAccessors` is the plain object `{}` (line 131) and the `push` call of
line 166 raises a `TypeError` on the first view. -/
theorem c1_index_accessor_emission :
    buildIndexAccessors c1Indices 5 c1Views = .error "push is not a function" ∧
    indexAccessorRecord c1Indices 5
        { indexOffset := 0, indexCount := 3, material := { baseColor := .rgba 1 0 0 1 } } =
      { bufferView := 5, byteOffset := 0, componentType := 5123, count := 3,
        type := "SCALAR", min := [.fin 0], max := [.fin 2] } ∧
    indexAccessorRecord c1Indices 5
        { indexOffset := 3, indexCount := 3, material := { baseColor := .rgba 0 1 0 1 } } =
      { bufferView := 5, byteOffset := 6, componentType := 5123, count := 3,
        type := "SCALAR", min := [.fin 10], max := [.fin 12] } := by
  refine ⟨rfl, by decide, by decide⟩

/-- Claim C3 (code bug): evaluation at a concrete failing input.  For the
mesh with nonzero vertex colors, `hasVertexColors` holds, the color buffer
view is present (fourth entry, the extra 34962 target) and the primitive
attribute map carries COLOR_0 — but the statement of line 276 assigns the
vertex-color accessor to the named property `accessor_vertexColor` of the
array instead of pushing it, so the accessor array itself gains no
vertex-color accessor.  For the all-zero mesh all three artefacts are
absent, as claimed. -/
theorem c3_vertex_color_artifacts :
    hasVertexColors c3Mesh.vertexColors = true ∧
    (buildAttributes true true false).COLOR_0 = some 3 ∧
    (buildBufferViews c3Mesh true).map (fun bv => bv.target) =
      [34962, 34962, 34962, 34962, 34962, 34963] ∧
    (addVertexColorAccessor { arr := [], accessor_vertexColor := none } true
        (vertexColorAccessor c3Mesh 3 1)).arr = [] ∧
    (addVertexColorAccessor { arr := [], accessor_vertexColor := none } true
        (vertexColorAccessor c3Mesh 3 1)).accessor_vertexColor =
      some (vertexColorAccessor c3Mesh 3 1) ∧
    hasVertexColors sampleMesh.vertexColors = false ∧
    (buildAttributes false true false).COLOR_0 = none ∧
    (buildBufferViews sampleMesh true).map (fun bv => bv.target) =
      [34962, 34962, 34962, 34962, 34963] ∧
    addVertexColorAccessor { arr := [], accessor_vertexColor := none } false
      (vertexColorAccessor c3Mesh 3 1) = { arr := [], accessor_vertexColor := none } := by
  decide

/-- Claim C8 (code bug): the image / texture / sampler code never runs.
For any nonempty view list, the first iteration of the loop of lines
161-237 raises the `TypeError` of line 166 (a push on the plain object
`indexAccessors`) before reaching the bookkeeping of lines 181-200, so no
sampler, image or texture is ever created on any input; the second
conjunct evaluates the unreachable bookkeeping fragment itself, which, as
written, would initialise the shared samplers array with the single
default entry (9729 filters, 10497 wraps) and append one image and one
texture referencing sampler 0. -/
theorem c8_loop_fails_before_textures (indices : List ℚ) (idxBV : ℕ)
    (hVC ub dep : Bool) (views : List View) (h : views ≠ []) :
    runViewsLoop indices idxBV hVC ub dep views = .error "push is not a function" ∧
    texStep none
      { indexOffset := 0, indexCount := 3,
        material := { baseColor := .uri "left.png" } } =
      some ([defaultSampler], [{ uri := "left.png" }], [{ sampler := 0, source := 0 }]) := by
  refine ⟨?_, rfl⟩
  cases views with
  | nil => exact absurd rfl h
  | cons v t => rfl

/-- Witness for C8 at the concrete view list with two textured materials
and one flat-color material in between. -/
theorem c8_witness :
    runViewsLoop c1Indices 5 true true false c8Views = .error "push is not a function" ∧
    texStep none
      { indexOffset := 0, indexCount := 3,
        material := { baseColor := .uri "left.png" } } =
      some ([defaultSampler], [{ uri := "left.png" }], [{ sampler := 0, source := 0 }]) :=
  c8_loop_fails_before_textures c1Indices 5 true true false c8Views (by decide)

end CreateGltf








